import Mathlib

/-!
Verification development for the selendra-sdk connection, event and
account-mapping subsystems. The definitions below are shallow embeddings of
the Rust sources (`src/rust/src/connection/mod.rs`, `src/rust/src/evm/events.rs`,
`src/rust/src/unified/account.rs`, `src/old/rust/src/unified/balance.rs`).
Bytes are modelled as `Nat` values below 256, byte strings as `List Nat`,
hash maps as association lists, and the external keccak-256 primitive
(`tiny_keccak` / `ethers keccak256`) is implemented in full so that the
content-derived cache identifiers can be computed inside the logic.
-/

set_option maxRecDepth 20000

/-- Byte strings: lists of naturals, each below 256. -/
abbrev Bytes := List Nat

/-! ## Keccak-256 (the hash primitive used by `tiny_keccak::Keccak::v256` and
`ethers::core::utils::keccak256`) -/

/-- Mask for 64-bit lanes. -/
def m64 : Nat := 18446744073709551615

/-- Left-rotation of a 64-bit lane by r bits (0 ≤ r < 64). -/
def rotl64 (x r : Nat) : Nat :=
  Nat.lor (Nat.land (Nat.shiftLeft x r) m64) (Nat.shiftRight x (64 - r))

/-- Read lane i from a 25-lane state. -/
def getLane (s : List Nat) (i : Nat) : Nat := s.getD i 0

/-- Keccak theta step: column parities. -/
def thetaC (s : List Nat) : List Nat :=
  (List.range 5).map fun x =>
    Nat.xor (getLane s x)
      (Nat.xor (getLane s (x + 5))
        (Nat.xor (getLane s (x + 10))
          (Nat.xor (getLane s (x + 15)) (getLane s (x + 20)))))

/-- Keccak theta step: D values. -/
def thetaD (c : List Nat) : List Nat :=
  (List.range 5).map fun x =>
    Nat.xor (getLane c ((x + 4) % 5)) (rotl64 (getLane c ((x + 1) % 5)) 1)

/-- Keccak theta step. -/
def theta (s : List Nat) : List Nat :=
  let d := thetaD (thetaC s)
  (List.range 25).map fun i => Nat.xor (getLane s i) (getLane d (i % 5))

/-- Rho rotation offsets, as five rows of five, indexed by lane position
x + 5*y after flattening. -/
def rhoOffsets : List Nat :=
  [[0, 1, 62, 28, 27],
   [36, 44, 6, 55, 20],
   [3, 10, 43, 25, 39],
   [41, 45, 15, 21, 8],
   [18, 2, 61, 56, 14]].flatten

/-- Combined rho and pi steps. -/
def rhoPi (s : List Nat) : List Nat :=
  (List.range 25).map fun j =>
    let jx := j % 5
    let jy := j / 5
    let src := (jx + 3 * jy) % 5 + 5 * jx
    rotl64 (getLane s src) (rhoOffsets.getD src 0)

/-- Chi step. -/
def chi (b : List Nat) : List Nat :=
  (List.range 25).map fun j =>
    let jx := j % 5
    let jy := j / 5
    Nat.xor (getLane b j)
      (Nat.land (Nat.xor (getLane b ((jx + 1) % 5 + 5 * jy)) m64)
        (getLane b ((jx + 2) % 5 + 5 * jy)))

/-- Iota step: fold the round constant into lane 0. -/
def iotaStep (rc : Nat) (s : List Nat) : List Nat :=
  match s with
  | [] => []
  | a :: rest => Nat.xor a rc :: rest

/-- The 24 Keccak round constants. -/
def roundConstants : List Nat :=
  [0x0000000000000001, 0x0000000000008082, 0x800000000000808a, 0x8000000080008000,
   0x000000000000808b, 0x0000000080000001, 0x8000000080008081, 0x8000000000008009,
   0x000000000000008a, 0x0000000000000088, 0x0000000080008009, 0x000000008000000a,
   0x000000008000808b, 0x800000000000008b, 0x8000000000008089, 0x8000000000008003,
   0x8000000000008002, 0x8000000000000080, 0x000000000000800a, 0x800000008000000a,
   0x8000000080008081, 0x8000000000008080, 0x0000000080000001, 0x8000000080008008]

/-- The keccak-f[1600] permutation. -/
def keccakF (s : List Nat) : List Nat :=
  roundConstants.foldl (fun st rc => iotaStep rc (chi (rhoPi (theta st)))) s

/-- Multi-rate padding for keccak-256 (legacy 0x01 domain byte, rate 136). -/
def padMessage (msg : Bytes) : Bytes :=
  let padLen := 136 - msg.length % 136
  msg ++ (if padLen = 1 then [0x81]
          else 0x01 :: (List.replicate (padLen - 2) 0 ++ [0x80]))

/-- Load 8 little-endian bytes into one 64-bit lane. -/
def bytesToLane (bs : Bytes) : Nat :=
  bs.foldr (fun b acc => acc * 256 + b) 0

/-- Split a byte string into rate-sized blocks (structural, fuel = length). -/
def chunks136 (fuel : Nat) (l : Bytes) : List Bytes :=
  match fuel with
  | 0 => []
  | fuel + 1 =>
    match l with
    | [] => []
    | _ => l.take 136 :: chunks136 fuel (l.drop 136)

/-- Absorb one 136-byte block into the state and permute. -/
def absorbBlock (s : List Nat) (block : Bytes) : List Nat :=
  let lanes := (List.range 17).map fun i => bytesToLane ((block.drop (8 * i)).take 8)
  keccakF ((List.range 25).map fun i =>
    if i < 17 then Nat.xor (getLane s i) (getLane lanes i) else getLane s i)

/-- Serialize a 64-bit lane to 8 little-endian bytes. -/
def laneBytes (n : Nat) : Bytes :=
  (List.range 8).map fun i => Nat.shiftRight n (8 * i) % 256

/-- keccak-256 of a byte string: 32-byte digest. -/
def keccak256 (msg : Bytes) : Bytes :=
  let padded := padMessage msg
  let final := (chunks136 padded.length padded).foldl absorbBlock (List.replicate 25 0)
  ((final.take 4).map laneBytes).flatten

/-! ## Connection management (`src/rust/src/connection/mod.rs`)

`ConnectionManager::initialize` is an async method whose only external
effects are the two connection attempts (`initialize_substrate`,
`initialize_evm`); it is embedded as a pure function over the attempt
outcomes. An attempt outcome is `Option String`: `none` for success,
`some e` for failure, where `e` is the display string of the returned
`SDKError` (the code stores `e.to_string()` into the status). -/

/-- `ConnectionType` from `connection/mod.rs`. -/
inductive ConnectionType
  | substrate
  | evm
  | both
deriving DecidableEq

/-- `ConnectionStatus` from `connection/mod.rs`. -/
inductive ConnectionStatus
  | disconnected
  | connecting
  | connected
  | reconnecting
  | error (reason : String)
deriving DecidableEq

/-- `ConnectionConfig` from `connection/mod.rs`. -/
structure ConnectionConfig where
  connection_type : ConnectionType
  substrate_endpoint : Option String
  evm_endpoint : Option String
  timeout : Nat
  max_retries : Nat
  auto_reconnect : Bool
  health_check_interval : Nat

/-- The mutable state of a `ConnectionManager`: the three status cells and
the two optional connection handles (modelled by presence flags). -/
structure ManagerState where
  status : ConnectionStatus
  substrate_status : ConnectionStatus
  evm_status : ConnectionStatus
  has_substrate_connection : Bool
  has_evm_client : Bool
deriving DecidableEq

/-- State of a freshly built manager (`ConnectionManager::new`). -/
def ManagerState.fresh : ManagerState :=
  ⟨ConnectionStatus.disconnected, ConnectionStatus.disconnected,
   ConnectionStatus.disconnected, false, false⟩

/-- `matches!(ty, ConnectionType::Substrate | ConnectionType::Both)`. -/
def wantsSubstrate : ConnectionType → Bool
  | ConnectionType.substrate => true
  | ConnectionType.both => true
  | ConnectionType.evm => false

/-- `matches!(ty, ConnectionType::EVM | ConnectionType::Both)`. -/
def wantsEvm : ConnectionType → Bool
  | ConnectionType.evm => true
  | ConnectionType.both => true
  | ConnectionType.substrate => false

/-- `ConnectionManager::update_overall_status`: combine the two per-chain
statuses into the aggregate, with the match arms in source order. -/
def updateOverallStatus : ConnectionStatus → ConnectionStatus → ConnectionStatus
  | ConnectionStatus.connected, ConnectionStatus.connected =>
      ConnectionStatus.connected
  | ConnectionStatus.error e1, ConnectionStatus.error e2 =>
      ConnectionStatus.error ("Both connections failed: " ++ e1 ++ " | " ++ e2)
  | ConnectionStatus.error e, _ =>
      ConnectionStatus.error ("One connection failed: " ++ e)
  | _, ConnectionStatus.error e =>
      ConnectionStatus.error ("One connection failed: " ++ e)
  | ConnectionStatus.connecting, ConnectionStatus.connected =>
      ConnectionStatus.connecting
  | ConnectionStatus.connected, ConnectionStatus.connecting =>
      ConnectionStatus.connecting
  | ConnectionStatus.reconnecting, ConnectionStatus.connected =>
      ConnectionStatus.reconnecting
  | ConnectionStatus.connected, ConnectionStatus.reconnecting =>
      ConnectionStatus.reconnecting
  | ConnectionStatus.disconnected, ConnectionStatus.connected =>
      ConnectionStatus.connected
  | ConnectionStatus.connected, ConnectionStatus.disconnected =>
      ConnectionStatus.connected
  | _, _ => ConnectionStatus.disconnected

/-- `ConnectionManager::initialize`, embedded over the attempt outcomes
`subAttempt`/`evmAttempt` (outcome of `initialize_substrate` /
`initialize_evm` when they are reached). Returns the final state together
with the call's result (`Except.error e` models `return Err(e)`). -/
def managerInit (cfg : ConnectionConfig) (subAttempt evmAttempt : Option String)
    (st0 : ManagerState) : ManagerState × Except String Unit :=
  let st1 := { st0 with status := ConnectionStatus.connecting }
  let subPhase : ManagerState × Option String :=
    if wantsSubstrate cfg.connection_type then
      match cfg.substrate_endpoint with
      | some _ =>
        let s := { st1 with substrate_status := ConnectionStatus.connecting }
        match subAttempt with
        | none =>
            ({ s with has_substrate_connection := true,
                      substrate_status := ConnectionStatus.connected }, none)
        | some e =>
            let s := { s with substrate_status := ConnectionStatus.error e }
            if cfg.connection_type = ConnectionType.substrate then
              ({ s with status := ConnectionStatus.error e }, some e)
            else (s, none)
      | none => (st1, none)
    else (st1, none)
  match subPhase with
  | (st2, some e) => (st2, Except.error e)
  | (st2, none) =>
    let evmPhase : ManagerState × Option String :=
      if wantsEvm cfg.connection_type then
        match cfg.evm_endpoint with
        | some _ =>
          let s := { st2 with evm_status := ConnectionStatus.connecting }
          match evmAttempt with
          | none =>
              ({ s with has_evm_client := true,
                        evm_status := ConnectionStatus.connected }, none)
          | some e =>
              let s := { s with evm_status := ConnectionStatus.error e }
              if cfg.connection_type = ConnectionType.evm then
                ({ s with status := ConnectionStatus.error e }, some e)
              else (s, none)
        | none => (st2, none)
      else (st2, none)
    match evmPhase with
    | (st3, some e) => (st3, Except.error e)
    | (st3, none) =>
      ({ st3 with
          status := updateOverallStatus st3.substrate_status st3.evm_status },
       Except.ok ())

/-- The ConnectionConfig of the C1 scenario: type Both, both endpoints set. -/
def bothConfig (subEp evmEp : String) : ConnectionConfig :=
  ⟨ConnectionType.both, some subEp, some evmEp, 30, 3, true, 60⟩

/-! ## EVM events (`src/rust/src/evm/events.rs`)

`EventCache::add_event` keys the primary store by
`H256::from_slice(&keccak256(&serde_json::to_vec(&event).unwrap_or_default()))`.
`serde_json::to_vec` of the derived `Serialize` for `ProcessedEvent` is
embedded below byte for byte: compact JSON, fields in declaration order,
`H256`/`Address` as 0x-prefixed lowercase hex strings (impl-serde),
`Vec<u8>` as an array of numbers, `Option::None` as `null`. -/

/-- ASCII codes of a Lean string literal. -/
def ascii (s : String) : Bytes := s.data.map Char.toNat

/-- Lowercase hex digit, as serde_json / impl-serde emit. -/
def hexDigitCode (n : Nat) : Nat := if n < 10 then 48 + n else 87 + n

/-- Hex rendering of a byte string. -/
def hexOfBytes (bs : Bytes) : Bytes :=
  (bs.map fun b => [hexDigitCode (b / 16), hexDigitCode (b % 16)]).flatten

/-- JSON string holding the 0x-prefixed hex of a hash or address. -/
def jHex (bs : Bytes) : Bytes := 34 :: 48 :: 120 :: (hexOfBytes bs ++ [34])

/-- Decimal digits accumulator (structural fuel recursion). -/
def natDecCore : Nat → Nat → Bytes → Bytes
  | 0, _, acc => acc
  | fuel + 1, n, acc =>
      if n = 0 then acc else natDecCore fuel (n / 10) ((48 + n % 10) :: acc)

/-- A JSON number literal for an unsigned integer. -/
def jNat (n : Nat) : Bytes := if n = 0 then [48] else natDecCore (n + 1) n []

/-- serde_json escaping of one byte inside a string literal. -/
def escapeByte (b : Nat) : Bytes :=
  if b = 34 then [92, 34]
  else if b = 92 then [92, 92]
  else if b = 8 then [92, 98]
  else if b = 9 then [92, 116]
  else if b = 10 then [92, 110]
  else if b = 12 then [92, 102]
  else if b = 13 then [92, 114]
  else if b < 32 then [92, 117, 48, 48, hexDigitCode (b / 16), hexDigitCode (b % 16)]
  else [b]

/-- A JSON string literal over UTF-8 bytes. -/
def jStr (s : Bytes) : Bytes := 34 :: ((s.map escapeByte).flatten ++ [34])

/-- JSON boolean. -/
def jBool : Bool → Bytes
  | true => ascii ("true")
  | false => ascii ("false")

/-- JSON null (serde's `Option::None`). -/
def jNull : Bytes := ascii ("null")

/-- Comma-join already-serialized fragments. -/
def joinComma : List Bytes → Bytes
  | [] => []
  | [x] => x
  | x :: xs => x ++ (44 :: joinComma xs)

/-- JSON array of serialized fragments. -/
def jArr (xs : List Bytes) : Bytes := 91 :: (joinComma xs ++ [93])

/-- JSON of an `Option` via a serializer for the payload. -/
def jOpt {α : Type} (f : α → Bytes) : Option α → Bytes
  | none => jNull
  | some x => f x

/-- `EventParameter` from `evm/events.rs` (strings as UTF-8 bytes). -/
structure EventParameter where
  name : Bytes
  type : Bytes
  value : Bytes
  indexed : Bool
deriving DecidableEq

/-- serde_json encoding of an `EventParameter`. -/
def jsonOfParameter (p : EventParameter) : Bytes :=
  [123] ++ ascii ("\"name\":") ++ jStr p.name
  ++ ascii (",\"type\":") ++ jStr p.type
  ++ ascii (",\"value\":") ++ jStr p.value
  ++ ascii (",\"indexed\":") ++ jBool p.indexed
  ++ [125]

/-- `ProcessedEvent` from `evm/events.rs`. 32-byte fields (`H256`) and the
20-byte `Address` are byte lists; `u64` fields are `Nat`. -/
structure ProcessedEvent where
  signature : Bytes
  name : Option Bytes
  contract_address : Bytes
  block_number : Nat
  block_hash : Bytes
  transaction_hash : Bytes
  transaction_index : Nat
  log_index : Nat
  topics : List Bytes
  data : Bytes
  parameters : Option (List EventParameter)
  processed_at : Nat
deriving DecidableEq

/-- `serde_json::to_vec(&event)` for a `ProcessedEvent`. -/
def jsonOfEvent (e : ProcessedEvent) : Bytes :=
  [123] ++ ascii ("\"signature\":") ++ jHex e.signature
  ++ ascii (",\"name\":") ++ jOpt jStr e.name
  ++ ascii (",\"contract_address\":") ++ jHex e.contract_address
  ++ ascii (",\"block_number\":") ++ jNat e.block_number
  ++ ascii (",\"block_hash\":") ++ jHex e.block_hash
  ++ ascii (",\"transaction_hash\":") ++ jHex e.transaction_hash
  ++ ascii (",\"transaction_index\":") ++ jNat e.transaction_index
  ++ ascii (",\"log_index\":") ++ jNat e.log_index
  ++ ascii (",\"topics\":") ++ jArr (e.topics.map jHex)
  ++ ascii (",\"data\":") ++ jArr (e.data.map jNat)
  ++ ascii (",\"parameters\":")
      ++ jOpt (fun ps => jArr (ps.map jsonOfParameter)) e.parameters
  ++ ascii (",\"processed_at\":") ++ jNat e.processed_at
  ++ [125]

/-- The content-derived identifier `add_event` keys the cache by. -/
def eventHash (e : ProcessedEvent) : Bytes := keccak256 (jsonOfEvent e)

/-- The identity key the specification names: (block number, tx hash, log index). -/
def identityKey (e : ProcessedEvent) : Nat × Bytes × Nat :=
  (e.block_number, e.transaction_hash, e.log_index)

/-! ### HashMap embedding (association lists, insertion order) -/

/-- `HashMap::get`. -/
def lookupAssoc {K V : Type} [DecidableEq K] (k : K) : List (K × V) → Option V
  | [] => none
  | (k', v) :: rest => if k' = k then some v else lookupAssoc k rest

/-- `HashMap::insert` (replaces the value under an existing key). -/
def insertAssoc {K V : Type} [DecidableEq K] (k : K) (v : V) :
    List (K × V) → List (K × V)
  | [] => [(k, v)]
  | (k', v') :: rest =>
      if k' = k then (k, v) :: rest else (k', v') :: insertAssoc k v rest

/-- `map.entry(k).or_insert_with(Vec::new).push(h)`. -/
def entryPush {K : Type} [DecidableEq K] (k : K) (h : Bytes) :
    List (K × List Bytes) → List (K × List Bytes)
  | [] => [(k, [h])]
  | (k', hs) :: rest =>
      if k' = k then (k', hs ++ [h]) :: rest else (k', hs) :: entryPush k h rest

/-- `EventCache`: primary store plus the two secondary indices. -/
structure EventCache where
  events : List (Bytes × ProcessedEvent)
  by_block : List (Nat × List Bytes)
  by_address : List (Bytes × List Bytes)

/-- `EventCache::new`. -/
def EventCache.new : EventCache := ⟨[], [], []⟩

/-- `EventCache::add_event`. -/
def add_event (c : EventCache) (e : ProcessedEvent) : EventCache :=
  let h := eventHash e
  { events := insertAssoc h e c.events,
    by_block := entryPush e.block_number h c.by_block,
    by_address := entryPush e.contract_address h c.by_address }

/-- `EventCache::get_event`. -/
def get_event (c : EventCache) (h : Bytes) : Option ProcessedEvent :=
  lookupAssoc h c.events

/-- `EventCache::get_events_by_block`. -/
def get_events_by_block (c : EventCache) (block_number : Nat) :
    List ProcessedEvent :=
  match lookupAssoc block_number c.by_block with
  | some hs => hs.filterMap fun h => lookupAssoc h c.events
  | none => []

/-- `EventCache::get_events_by_address`. -/
def get_events_by_address (c : EventCache) (addr : Bytes) :
    List ProcessedEvent :=
  match lookupAssoc addr c.by_address with
  | some hs => hs.filterMap fun h => lookupAssoc h c.events
  | none => []

/-- `H256::default()`: the all-zero hash the source pushes as a placeholder. -/
def h256default : Bytes := List.replicate 32 0

/-- `EventCache::clear_before`: retain primary entries and block-index rows at
or above the threshold, then rebuild the address index — pushing
`H256::default()` for every retained event, exactly as the source does. -/
def clear_before (c : EventCache) (block_number : Nat) : EventCache :=
  let events := c.events.filter fun kv => block_number ≤ kv.2.block_number
  let by_block := c.by_block.filter fun kv => block_number ≤ kv.1
  let by_address :=
    events.foldl (fun m kv => entryPush kv.2.contract_address h256default m) []
  ⟨events, by_block, by_address⟩

/-! ### EventListener polling loop -/

/-- `ethers` `BlockNumber` (the variants this crate constructs). -/
inductive BlockNumber
  | latest
  | number (n : Nat)
deriving DecidableEq

/-- `EventListenerConfig` from `evm/events.rs`. -/
structure EventListenerConfig where
  addresses : Option (List Bytes)
  topics : Option (List Bytes)
  from_block : Option BlockNumber
  to_block : Option BlockNumber
  poll_interval_ms : Nat
  batch_size : Nat
  enable_streaming : Bool

/-- The fields of the `ethers` log `Filter` that the listener sets. -/
structure EvFilter where
  address : Option (List Bytes)
  topic1 : Option (List Bytes)
  from_block : Option BlockNumber
  to_block : Option BlockNumber
deriving DecidableEq

/-- `Filter::default()`. -/
def filterDefault : EvFilter := ⟨none, none, none, none⟩

/-- The filter built inside one polling iteration: address allow-list, then
topic allow-list (only when non-empty), then the inclusive block range
`[last_block + 1, current_block]`. -/
def buildTickFilter (cfg : EventListenerConfig) (last_block current_block : Nat) :
    EvFilter :=
  let f := filterDefault
  let f := match cfg.addresses with
           | some as => { f with address := some as }
           | none => f
  let f := match cfg.topics with
           | some ts => if ts = [] then f else { f with topic1 := some ts }
           | none => f
  { f with from_block := some (BlockNumber.number (last_block + 1)),
           to_block := some (BlockNumber.number current_block) }

/-- An `ethers` `Log` (the fields `process_log_sync` reads). -/
structure Log where
  address : Bytes
  topics : Option (List Bytes)
  data : Bytes
  block_number : Option Nat
  block_hash : Option Bytes
  transaction_hash : Option Bytes
  transaction_index : Option Nat
  log_index : Option Nat
deriving DecidableEq

/-- `EventListener::process_log_sync`: skip logs without topics, otherwise
build a `ProcessedEvent` whose signature is the first topic; missing
per-log fields default (`unwrap_or_default`). -/
def process_log_sync (now : Nat) (log : Log) : Option ProcessedEvent :=
  match log.topics with
  | none => none
  | some topics =>
    match topics with
    | [] => none
    | t0 :: _ =>
      some { signature := t0, name := none, contract_address := log.address,
             block_number := log.block_number.getD 0,
             block_hash := log.block_hash.getD (List.replicate 32 0),
             transaction_hash := log.transaction_hash.getD (List.replicate 32 0),
             transaction_index := log.transaction_index.getD 0,
             log_index := log.log_index.getD 0,
             topics := topics, data := log.data, parameters := none,
             processed_at := now }

/-- What one loop iteration does next. -/
inductive LoopOutcome
  | next (newLast : Nat)
  | halted
  | failed (e : String)
deriving DecidableEq

/-- The chain-collaborator responses observed during one iteration. -/
structure TickEnv where
  current_block : Except String Nat
  logs : Except String (List Log)
  channelOpen : Bool
  now : Nat

/-- One iteration of `EventListener::event_processing_loop`. Output: the log
queries issued (their filters), the outcome, and the records delivered to
the channel. The `_running` flag — the one `EventListener::stop` flips — is
a parameter, but the loop body in the source contains no check of it (only
a comment that a real implementation would have a cancellation mechanism),
so the body below never consults it. -/
def eventTick (cfg : EventListenerConfig) (_running : Bool) (last_block : Nat)
    (env : TickEnv) : List EvFilter × LoopOutcome × List ProcessedEvent :=
  match env.current_block with
  | Except.error e => ([], LoopOutcome.failed e, [])
  | Except.ok current =>
    if last_block < current then
      let filter := buildTickFilter cfg last_block current
      match env.logs with
      | Except.error e => ([filter], LoopOutcome.failed e, [])
      | Except.ok logs =>
        let events := logs.filterMap (process_log_sync env.now)
        if env.channelOpen then ([filter], LoopOutcome.next current, events)
        else if events = [] then ([filter], LoopOutcome.next current, [])
        else ([filter], LoopOutcome.halted, [])
    else ([], LoopOutcome.next last_block, [])

/-- The `HealthMonitor` background loop (`while *running_flag.read().await`):
number of `health_check` calls it performs, given the successive values the
running flag has when the loop reads it. -/
def healthLoopSteps : List Bool → Nat
  | [] => 0
  | f :: rest => if f then healthLoopSteps rest + 1 else 0

/-- `EventListener::stop` / `HealthMonitor::stop`: set the owned flag false. -/
def stopFlag (_ : Bool) : Bool := false

/-! ## Unified account mapping (`src/rust/src/unified/account.rs`) -/

/-- `convert_evm_to_substrate`: 0x6d marker, the 20 address bytes, 11 zeros. -/
def convert_evm_to_substrate (evm : Bytes) : Bytes :=
  0x6d :: (evm ++ List.replicate 11 0)

/-- `convert_substrate_to_evm`: Ethereum-derived addresses (first byte 0x6d)
recover bytes 1..21; native addresses hash the full 32 bytes with
keccak-256 and keep bytes 12..32 of the digest. -/
def convert_substrate_to_evm (sub : Bytes) : Bytes :=
  if sub.headD 0 = 0x6d then (sub.drop 1).take 20
  else (keccak256 sub).drop 12

/-- `UnifiedAddress` from `unified/account.rs`. -/
inductive UnifiedAddress
  | substrate (a : Bytes)
  | evm (a : Bytes)
  | h160 (a : Bytes)
deriving DecidableEq

/-- `address_utils::are_same_entity`: mixed pairs convert the first argument
into the second's address space; everything else is plain equality. -/
def are_same_entity : UnifiedAddress → UnifiedAddress → Bool
  | UnifiedAddress.substrate a, UnifiedAddress.evm b =>
      decide (convert_substrate_to_evm a = b)
  | UnifiedAddress.evm a, UnifiedAddress.substrate b =>
      decide (convert_evm_to_substrate a = b)
  | x, y => decide (x = y)

/-! ## BalanceCache (`src/old/rust/src/unified/balance.rs`) -/

/-- `ChainBalance` (old crate). -/
structure ChainBalance where
  amount : Nat
  decimals : Nat
  symbol : String
  usd_value : Option Float

/-- `UnifiedBalance` (old crate). -/
structure UnifiedBalance where
  address : String
  substrate_balance : Option ChainBalance
  evm_balance : Option ChainBalance
  total_usd : Option Float
  last_updated : Nat

/-- `CachedBalance`: snapshot plus capture timestamp. -/
structure CachedBalance where
  balance : UnifiedBalance
  timestamp : Nat

/-- Wrapping u64 subtraction (`now - cached.timestamp` in release mode). -/
def wrapSub (a b : Nat) : Nat := (2 ^ 64 + a - b) % 2 ^ 64

/-- `BalanceCache`. -/
structure BalanceCache where
  cache : List (String × CachedBalance)
  ttl_seconds : Nat

/-- `BalanceCache::new`. -/
def BalanceCache.new (ttl_seconds : Nat) : BalanceCache := ⟨[], ttl_seconds⟩

/-- `BalanceCache::get` at clock reading `now`: fresh entries only, no
eviction (the map is untouched). -/
def BalanceCache.get (c : BalanceCache) (key : String) (now : Nat) :
    Option CachedBalance :=
  match lookupAssoc key c.cache with
  | some cached =>
      if wrapSub now cached.timestamp < c.ttl_seconds then some cached else none
  | none => none

/-- `BalanceCache::set` at clock reading `now`. -/
def BalanceCache.set (c : BalanceCache) (key : String) (balance : UnifiedBalance)
    (now : Nat) : BalanceCache :=
  { c with cache := insertAssoc key ⟨balance, now⟩ c.cache }

/-! ## Concrete inputs used by the scenario theorems below -/

/-- The all-zero 32-byte word. -/
def zero32 : Bytes := List.replicate 32 0

/-- A concrete 20-byte contract address, 0x0101…01. -/
def addr01 : Bytes := List.replicate 20 1

/-- Endpoint strings for the C1 scenario. -/
def subEndpoint : String := "ws://127.0.0.1:9944"

/-- Endpoint string of the unreachable contract chain. -/
def evmEndpoint : String := "http://127.0.0.1:8545"

/-- The error the failed EVM connection attempt reports. -/
def evmRefused : String := "Failed to connect to EVM: connection refused"

/-- An event at block 100 emitted by `addr01`. -/
def evBlock100 : ProcessedEvent :=
  ⟨zero32, none, addr01, 100, zero32, zero32, 0, 0, [], [], none, 0⟩

/-- Cache holding just `evBlock100`. -/
def cacheOne : EventCache := add_event EventCache.new evBlock100

/-- `cacheOne` after `clear_before(50)` (the event's block 100 survives). -/
def cacheOneCleared : EventCache := clear_before cacheOne 50

/-- First record of the C3 pair: block 1, zero tx hash, log index 0. -/
def evTupleA : ProcessedEvent :=
  ⟨zero32, none, addr01, 1, zero32, zero32, 0, 0, [], [], none, 0⟩

/-- Second record of the C3 pair: same (block, tx hash, log index) identity
tuple as `evTupleA`, but different payload bytes. -/
def evTupleB : ProcessedEvent := { evTupleA with data := [1] }

/-- keccak-256 digest of `evTupleA`'s serialized form (as a literal). -/
def evTupleAHash : Bytes :=
  [75, 127, 164, 62, 50, 11, 194, 66, 209, 205, 187, 0, 251, 178, 243, 1,
   206, 185, 153, 167, 113, 192, 117, 16, 8, 3, 170, 132, 204, 11, 193, 132]

/-- keccak-256 digest of `evTupleB`'s serialized form (as a literal). -/
def evTupleBHash : Bytes :=
  [160, 126, 205, 255, 185, 240, 116, 237, 56, 226, 200, 43, 208, 237, 149,
   20, 78, 112, 209, 200, 169, 99, 249, 141, 45, 167, 197, 80, 197, 240, 255,
   90]

/-- Cache after adding both records of the C3 pair. -/
def cacheTwoAdds : EventCache := add_event (add_event EventCache.new evTupleA) evTupleB

/-- A native (non-0x6d) account-space address: 32 zero bytes. -/
def nativeSub : Bytes := List.replicate 32 0

/-- The EVM address the code derives from `nativeSub` by hashing. -/
def derivedEvmOfNative : Bytes := convert_substrate_to_evm nativeSub

/-- Listener configuration with a one-address allow-list. -/
def pollCfgA : EventListenerConfig :=
  ⟨some [addr01], none, some (BlockNumber.number 100), none, 1000, 1000, true⟩

/-- Tick observations: head block 105, no logs, channel open. -/
def tick105 : TickEnv := ⟨Except.ok 105, Except.ok [], true, 0⟩

/-- A concrete balance snapshot for the C10 scenario. -/
def sampleBalance : UnifiedBalance := ⟨"0xabc", none, none, none, 0⟩

/-- The C10 cache: ttl 60, `set("x", sampleBalance)` at t = 0. -/
def balCache : BalanceCache :=
  BalanceCache.set (BalanceCache.new 60) ("x") sampleBalance 0

/-! ## Shared helper lemmas -/

/-- Round-trip helper: an Ethereum-derived account-space value (0x6d marker,
20 address bytes, 11 zeros) converts back to exactly its 20 address bytes. -/
theorem convert_roundtrip_aux (a : Bytes) (ha : a.length = 20) :
    convert_substrate_to_evm (convert_evm_to_substrate a) = a := by
  unfold convert_evm_to_substrate convert_substrate_to_evm
  rw [← ha]
  simp [List.take_left]

/-! ## Claim theorems -/

/-- C1 counterexample: with connection type Both, a reachable account
endpoint and an unreachable contract endpoint, `initialize()` returns Ok and
the contract status is Error, but the aggregate status computed by
`update_overall_status` is `Error("One connection failed: …")`, not
`Connected` as the claim states. -/
theorem managerInit_partial_overall_error_concrete :
    (managerInit (bothConfig subEndpoint evmEndpoint) none (some evmRefused)
        ManagerState.fresh).2 = Except.ok ()
    ∧ (managerInit (bothConfig subEndpoint evmEndpoint) none (some evmRefused)
        ManagerState.fresh).1.evm_status = ConnectionStatus.error evmRefused
    ∧ (managerInit (bothConfig subEndpoint evmEndpoint) none (some evmRefused)
        ManagerState.fresh).1.status
        ≠ ConnectionStatus.connected := by
  exact ⟨rfl, rfl, by decide⟩

/-- C1 (amended): with a ConnectionConfig whose connection type is Both,
where the account-ledger connection succeeds and the contract-ledger
connection fails with error `e`, `initialize()` returns Ok, the per-chain
contract status is `Error(e)`, the account-chain status is Connected, and
the aggregate status is `Error("One connection failed: " ++ e)` — partial
connectivity degrades the aggregate to Error rather than Connected. -/
theorem managerInit_partial_connectivity :
    ∀ subEp evmEp e : String,
      (managerInit (bothConfig subEp evmEp) none (some e)
          ManagerState.fresh).2 = Except.ok ()
      ∧ (managerInit (bothConfig subEp evmEp) none (some e)
          ManagerState.fresh).1.substrate_status = ConnectionStatus.connected
      ∧ (managerInit (bothConfig subEp evmEp) none (some e)
          ManagerState.fresh).1.evm_status = ConnectionStatus.error e
      ∧ (managerInit (bothConfig subEp evmEp) none (some e)
          ManagerState.fresh).1.status
          = ConnectionStatus.error ("One connection failed: " ++ e) :=
  fun _ _ _ => ⟨rfl, rfl, rfl, rfl⟩

/-- C4: the aggregate status computed by `update_overall_status` matches the
§4.1 combination table on every cell the table defines: both Connected →
Connected; two Errors → combined Error; one Error paired with any non-Error
status (either side) → `Error("One connection failed: …")`;
Connecting/Reconnecting paired with Connected → Connecting/Reconnecting;
Disconnected paired with Connected → Connected. -/
theorem updateOverallStatus_table :
    ∀ e e1 e2 : String,
      updateOverallStatus ConnectionStatus.connected ConnectionStatus.connected
        = ConnectionStatus.connected
      ∧ updateOverallStatus (ConnectionStatus.error e1) (ConnectionStatus.error e2)
        = ConnectionStatus.error ("Both connections failed: " ++ e1 ++ " | " ++ e2)
      ∧ updateOverallStatus (ConnectionStatus.error e) ConnectionStatus.disconnected
        = ConnectionStatus.error ("One connection failed: " ++ e)
      ∧ updateOverallStatus (ConnectionStatus.error e) ConnectionStatus.connecting
        = ConnectionStatus.error ("One connection failed: " ++ e)
      ∧ updateOverallStatus (ConnectionStatus.error e) ConnectionStatus.connected
        = ConnectionStatus.error ("One connection failed: " ++ e)
      ∧ updateOverallStatus (ConnectionStatus.error e) ConnectionStatus.reconnecting
        = ConnectionStatus.error ("One connection failed: " ++ e)
      ∧ updateOverallStatus ConnectionStatus.disconnected (ConnectionStatus.error e)
        = ConnectionStatus.error ("One connection failed: " ++ e)
      ∧ updateOverallStatus ConnectionStatus.connecting (ConnectionStatus.error e)
        = ConnectionStatus.error ("One connection failed: " ++ e)
      ∧ updateOverallStatus ConnectionStatus.connected (ConnectionStatus.error e)
        = ConnectionStatus.error ("One connection failed: " ++ e)
      ∧ updateOverallStatus ConnectionStatus.reconnecting (ConnectionStatus.error e)
        = ConnectionStatus.error ("One connection failed: " ++ e)
      ∧ updateOverallStatus ConnectionStatus.connecting ConnectionStatus.connected
        = ConnectionStatus.connecting
      ∧ updateOverallStatus ConnectionStatus.connected ConnectionStatus.connecting
        = ConnectionStatus.connecting
      ∧ updateOverallStatus ConnectionStatus.reconnecting ConnectionStatus.connected
        = ConnectionStatus.reconnecting
      ∧ updateOverallStatus ConnectionStatus.connected ConnectionStatus.reconnecting
        = ConnectionStatus.reconnecting
      ∧ updateOverallStatus ConnectionStatus.disconnected ConnectionStatus.connected
        = ConnectionStatus.connected
      ∧ updateOverallStatus ConnectionStatus.connected ConnectionStatus.disconnected
        = ConnectionStatus.connected :=
  fun _ _ _ =>
    ⟨rfl, rfl, rfl, rfl, rfl, rfl, rfl, rfl, rfl, rfl, rfl, rfl, rfl, rfl, rfl, rfl⟩

/-- C8: for every 20-byte contract-space address `a`, converting to account
space (0x6d marker, the 20 bytes, 11 zeros) and back recovers `a` exactly. -/
theorem evm_substrate_roundtrip (a : Bytes) (ha : a.length = 20) :
    convert_substrate_to_evm (convert_evm_to_substrate a) = a :=
  convert_roundtrip_aux a ha

/-- C8 witness: the round trip at the concrete address 0x0101…01. -/
theorem evm_substrate_roundtrip_witness :
    (List.replicate 20 1 : Bytes).length = 20
    ∧ convert_substrate_to_evm (convert_evm_to_substrate (List.replicate 20 1))
      = List.replicate 20 1 :=
  ⟨by decide, evm_substrate_roundtrip (List.replicate 20 1) (by decide)⟩

/-- C9: there is a native 32-byte account-space address (first byte ≠ 0x6d)
that the hash-truncation derivation does not round-trip:
`to_account_space(to_contract_space(b)) ≠ b`. -/
theorem substrate_evm_not_invertible :
    ∃ b : Bytes, b.length = 32 ∧ b.headD 0 ≠ 0x6d
      ∧ convert_evm_to_substrate (convert_substrate_to_evm b) ≠ b :=
  ⟨1 :: List.replicate 31 0, by decide, by decide, by decide⟩

/-- C7 counterexample: for the native account-space address of 32 zero bytes
and the contract-space address the code derives from it by hashing,
`are_same_entity` answers true in one argument order and false in the
other, so its result does depend on the order of the two arguments. -/
theorem are_same_entity_order_dependent_concrete :
    are_same_entity (UnifiedAddress.substrate nativeSub)
        (UnifiedAddress.evm derivedEvmOfNative) = true
    ∧ are_same_entity (UnifiedAddress.evm derivedEvmOfNative)
        (UnifiedAddress.substrate nativeSub) = false := by decide

/-- C7 (amended): `are_same_entity` converts its first argument into the
second argument's address space and compares bytes there. On pairs related
by the invertible 0x6d mapping the check holds in both argument orders; for
a native account-space address and its hash-derived contract-space address
the result is order-dependent (only the (Substrate, EVM) order is true). -/
theorem are_same_entity_directional (a : Bytes) (ha : a.length = 20) :
    are_same_entity (UnifiedAddress.evm a)
        (UnifiedAddress.substrate (convert_evm_to_substrate a)) = true
    ∧ are_same_entity (UnifiedAddress.substrate (convert_evm_to_substrate a))
        (UnifiedAddress.evm a) = true := by
  constructor
  · simp [are_same_entity]
  · simp [are_same_entity, convert_roundtrip_aux a ha]

/-- C7 witness: both argument orders at the concrete address 0x0202…02. -/
theorem are_same_entity_directional_witness :
    are_same_entity (UnifiedAddress.evm (List.replicate 20 2))
        (UnifiedAddress.substrate (convert_evm_to_substrate (List.replicate 20 2)))
      = true
    ∧ are_same_entity
        (UnifiedAddress.substrate (convert_evm_to_substrate (List.replicate 20 2)))
        (UnifiedAddress.evm (List.replicate 20 2)) = true :=
  are_same_entity_directional (List.replicate 20 2) (by decide)

set_option maxHeartbeats 12000000 in
/-- C2: evaluating `clear_before` at a concrete cache holding one event at
block 100 and pruning below block 50. The primary store and the block index
keep the event, but the rebuilt address index holds only the
`H256::default()` placeholder — an identifier absent from the primary
store — so the address lookup that succeeded before the prune returns
nothing afterwards. This is the latent inconsistency the claim (and the
spec's index invariant) rules out. -/
theorem clear_before_placeholder_index_concrete :
    get_events_by_block cacheOneCleared 100 = [evBlock100]
    ∧ cacheOneCleared.by_address = [(addr01, [h256default])]
    ∧ lookupAssoc h256default cacheOneCleared.events = none
    ∧ get_events_by_address cacheOne addr01 = [evBlock100]
    ∧ get_events_by_address cacheOneCleared addr01 = [] := by decide

set_option maxHeartbeats 12000000 in
/-- Digest of `evTupleA`'s serialized form, fixed once against the literal
`evTupleAHash` so later proofs rewrite instead of re-running the hash. -/
theorem eventHash_evTupleA : eventHash evTupleA = evTupleAHash := by decide

set_option maxHeartbeats 12000000 in
/-- Digest of `evTupleB`'s serialized form, fixed once against the literal
`evTupleBHash`. -/
theorem eventHash_evTupleB : eventHash evTupleB = evTupleBHash := by decide

/-- The two serialized records of the C3 pair hash differently, so they get
distinct primary keys. -/
theorem eventHash_evTuple_ne : eventHash evTupleA ≠ eventHash evTupleB := by
  rw [eventHash_evTupleA, eventHash_evTupleB]
  decide

set_option maxHeartbeats 4000000 in
/-- C3 counterexample: two records that agree on the (block number, tx hash,
log index) identity tuple but differ in their data bytes receive distinct
content hashes, so after the two `add_event` calls the cache holds two
distinct stored values for the same identity tuple — not one. -/
theorem add_event_same_tuple_two_entries_concrete :
    identityKey evTupleA = identityKey evTupleB
    ∧ evTupleA ≠ evTupleB
    ∧ eventHash evTupleA ≠ eventHash evTupleB
    ∧ cacheTwoAdds.events.length = 2
    ∧ get_event cacheTwoAdds (eventHash evTupleA) = some evTupleA
    ∧ get_event cacheTwoAdds (eventHash evTupleB) = some evTupleB := by
  have hne := eventHash_evTuple_ne
  have hABne : evTupleAHash ≠ evTupleBHash := by decide
  have hev : cacheTwoAdds.events
      = [(evTupleAHash, evTupleA), (evTupleBHash, evTupleB)] := by
    simp [cacheTwoAdds, add_event, EventCache.new, insertAssoc,
      eventHash_evTupleA, eventHash_evTupleB, hABne]
  refine ⟨by decide, by decide, hne, ?_, ?_, ?_⟩
  · rw [hev]
    rfl
  · rw [eventHash_evTupleA]
    show lookupAssoc evTupleAHash cacheTwoAdds.events = some evTupleA
    rw [hev]
    simp [lookupAssoc]
  · rw [eventHash_evTupleB]
    show lookupAssoc evTupleBHash cacheTwoAdds.events = some evTupleB
    rw [hev]
    simp [lookupAssoc, hABne]

/-- C3 (amended): the primary key of `add_event` is the keccak-256 hash of
the full serialized record, not of the identity tuple. For two adds whose
records agree on the tuple: if the records also hash identically (in
particular if they are equal in every field), the cache ends with exactly
one entry, reflecting the latest write; if any other field makes the
hashes differ, the cache ends with two distinct entries for that tuple. -/
theorem add_event_identity_by_hash (e1 e2 : ProcessedEvent)
    (_hk : identityKey e1 = identityKey e2) :
    (eventHash e1 = eventHash e2 →
        (add_event (add_event EventCache.new e1) e2).events
          = [(eventHash e2, e2)])
    ∧ (eventHash e1 ≠ eventHash e2 →
        (add_event (add_event EventCache.new e1) e2).events
          = [(eventHash e1, e1), (eventHash e2, e2)]) := by
  constructor
  · intro heq
    simp [add_event, EventCache.new, insertAssoc, heq]
  · intro hne
    simp [add_event, EventCache.new, insertAssoc, hne]

/-- C3 witness: the amended theorem applied to the concrete pair whose
hashes differ. -/
theorem add_event_identity_by_hash_witness :
    (add_event (add_event EventCache.new evTupleA) evTupleB).events
      = [(eventHash evTupleA, evTupleA), (eventHash evTupleB, evTupleB)] :=
  (add_event_identity_by_hash evTupleA evTupleB (by decide)).2
    eventHash_evTuple_ne

/-- C5: after `stop()` flips the owned flag to false, the HealthMonitor
loop — which reads the flag once per iteration — performs no further health
checks; but `event_processing_loop` contains no check of the flag at all,
so a polling iteration entered with the flag already false still issues its
log query and continues: the loop's behaviour is completely independent of
the running flag, contradicting the claimed one-iteration stop bound. -/
theorem event_loop_ignores_stop_flag_concrete :
    stopFlag true = false
    ∧ (∀ rest : List Bool, healthLoopSteps (false :: rest) = 0)
    ∧ (eventTick pollCfgA false 100 tick105).1 = [buildTickFilter pollCfgA 100 105]
    ∧ (eventTick pollCfgA false 100 tick105).2.1 = LoopOutcome.next 105
    ∧ (∀ (cfg : EventListenerConfig) (r1 r2 : Bool) (lb : Nat) (env : TickEnv),
        eventTick cfg r1 lb env = eventTick cfg r2 lb env) := by
  refine ⟨rfl, fun rest => rfl, by decide, by decide,
    fun cfg r1 r2 lb env => rfl⟩

/-- The tick filter carries the configured address allow-list verbatim. -/
theorem buildTickFilter_address (cfg : EventListenerConfig) (lb cb : Nat) :
    (buildTickFilter cfg lb cb).address = cfg.addresses := by
  rcases cfg with ⟨addrs, tops, fb, tb, p, b, s⟩
  rcases addrs with _ | as <;> rcases tops with _ | ts
  · rfl
  · by_cases hts : ts = [] <;> simp [buildTickFilter, filterDefault, hts]
  · rfl
  · by_cases hts : ts = [] <;> simp [buildTickFilter, filterDefault, hts]

/-- The tick filter carries a present, non-empty topic allow-list. -/
theorem buildTickFilter_topic1 (cfg : EventListenerConfig) (lb cb : Nat) :
    ∀ ts, cfg.topics = some ts → ts ≠ [] →
      (buildTickFilter cfg lb cb).topic1 = some ts := by
  intro ts hts hne
  rcases cfg with ⟨addrs, tops, fb, tb, p, b, s⟩
  simp only at hts
  subst hts
  rcases addrs with _ | as <;> simp [buildTickFilter, filterDefault, hne]

/-- Fields of the filter built for one polling tick: inclusive range
`[lb + 1, cb]`, the configured address allow-list verbatim, and the topic
allow-list whenever it is present and non-empty. -/
theorem buildTickFilter_spec (cfg : EventListenerConfig) (lb cb : Nat) :
    (buildTickFilter cfg lb cb).from_block = some (BlockNumber.number (lb + 1))
    ∧ (buildTickFilter cfg lb cb).to_block = some (BlockNumber.number cb)
    ∧ (buildTickFilter cfg lb cb).address = cfg.addresses
    ∧ (∀ ts, cfg.topics = some ts → ts ≠ [] →
        (buildTickFilter cfg lb cb).topic1 = some ts) :=
  ⟨rfl, rfl, buildTickFilter_address cfg lb cb, buildTickFilter_topic1 cfg lb cb⟩

/-- C6: on one polling tick with cursor `lastBlock` and observed head
`current` (with the log query answered and the channel open): if
`current > lastBlock`, exactly one log query is issued, its filter carries
the configured address and topic allow-lists and the inclusive block range
`[lastBlock + 1, current]`, and the cursor advances to `current`; if
`current ≤ lastBlock`, no log query is issued and the cursor is unchanged. -/
theorem eventTick_query_range
    (cfg : EventListenerConfig) (r : Bool) (lastBlock current : Nat)
    (env : TickEnv) (logs : List Log)
    (hcb : env.current_block = Except.ok current)
    (hlogs : env.logs = Except.ok logs)
    (hchan : env.channelOpen = true) :
    (lastBlock < current →
        (eventTick cfg r lastBlock env).1 = [buildTickFilter cfg lastBlock current]
        ∧ (buildTickFilter cfg lastBlock current).from_block
            = some (BlockNumber.number (lastBlock + 1))
        ∧ (buildTickFilter cfg lastBlock current).to_block
            = some (BlockNumber.number current)
        ∧ (buildTickFilter cfg lastBlock current).address = cfg.addresses
        ∧ (∀ ts, cfg.topics = some ts → ts ≠ [] →
              (buildTickFilter cfg lastBlock current).topic1 = some ts)
        ∧ (eventTick cfg r lastBlock env).2.1 = LoopOutcome.next current)
    ∧ (current ≤ lastBlock →
        (eventTick cfg r lastBlock env).1 = []
        ∧ (eventTick cfg r lastBlock env).2.1 = LoopOutcome.next lastBlock) := by
  constructor
  · intro hlt
    have he : eventTick cfg r lastBlock env
        = ([buildTickFilter cfg lastBlock current], LoopOutcome.next current,
           logs.filterMap (process_log_sync env.now)) := by
      simp [eventTick, hcb, hlogs, hchan, hlt]
    have hf := buildTickFilter_spec cfg lastBlock current
    exact ⟨by rw [he], hf.1, hf.2.1, hf.2.2.1, hf.2.2.2, by rw [he]⟩
  · intro hle
    have hnlt : ¬ lastBlock < current := by omega
    have he : eventTick cfg r lastBlock env
        = ([], LoopOutcome.next lastBlock, []) := by
      simp [eventTick, hcb, hnlt]
    exact ⟨by rw [he], by rw [he]⟩

/-- C6 witness: the scenario with cursor 100 and observed head 105 — one
query, inclusive range [101, 105], address allow-list carried over, cursor
advanced to 105. -/
theorem eventTick_query_range_witness :
    (eventTick pollCfgA true 100 tick105).1 = [buildTickFilter pollCfgA 100 105]
    ∧ (buildTickFilter pollCfgA 100 105).from_block = some (BlockNumber.number 101)
    ∧ (buildTickFilter pollCfgA 100 105).to_block = some (BlockNumber.number 105)
    ∧ (buildTickFilter pollCfgA 100 105).address = some [addr01]
    ∧ (eventTick pollCfgA true 100 tick105).2.1 = LoopOutcome.next 105 := by
  have h := (eventTick_query_range pollCfgA true 100 105 tick105 [] rfl rfl
    rfl).1 (by decide)
  exact ⟨h.1, h.2.1, h.2.2.1, h.2.2.2.1, h.2.2.2.2.2⟩

/-- C10: `BalanceCache::get` returns a stored entry exactly while
`now - timestamp < ttl` holds (strict), and the read leaves the underlying
map untouched; concretely with ttl 60 and `set("x", v)` at t = 0, the entry
is returned at t = 30, treated as absent at t = 61, and still present in
the map afterwards. -/
theorem balanceCache_ttl :
    (∀ (c : BalanceCache) (key : String) (now : Nat) (cb : CachedBalance),
        lookupAssoc key c.cache = some cb →
        (BalanceCache.get c key now = some cb
          ↔ wrapSub now cb.timestamp < c.ttl_seconds))
    ∧ BalanceCache.get balCache ("x") 30 = some ⟨sampleBalance, 0⟩
    ∧ BalanceCache.get balCache ("x") 61 = none
    ∧ lookupAssoc ("x") balCache.cache = some ⟨sampleBalance, 0⟩ := by
  refine ⟨?_, ?_, ?_, ?_⟩
  · intro c key now cb h
    simp only [BalanceCache.get, h]
    by_cases hlt : wrapSub now cb.timestamp < c.ttl_seconds
    · simp [hlt]
    · simp [hlt]
  · simp [BalanceCache.get, balCache, BalanceCache.set, BalanceCache.new,
      insertAssoc, lookupAssoc, wrapSub]
  · simp [BalanceCache.get, balCache, BalanceCache.set, BalanceCache.new,
      insertAssoc, lookupAssoc, wrapSub]
  · simp [balCache, BalanceCache.set, BalanceCache.new, insertAssoc,
      lookupAssoc]

/-- C10 witness: the characterization applied at the concrete cache, key
and clock reading 59. -/
theorem balanceCache_ttl_witness :
    BalanceCache.get balCache ("x") 59 = some ⟨sampleBalance, 0⟩
      ↔ wrapSub 59 0 < 60 :=
  balanceCache_ttl.1 balCache ("x") 59 ⟨sampleBalance, 0⟩ (by
    simp [balCache, BalanceCache.set, BalanceCache.new, insertAssoc,
      lookupAssoc])
